import Mathlib

set_option maxHeartbeats 1000000

/- Verification of the webhook-handler orchestration logic of the saleor-apps
   repository: the AvaTax checkout-calculate-taxes webhook handler
   (src/apps/avatax/src/pages/api/webhooks/checkout-calculate-taxes.ts) and the
   Typesense webhooks-status handler
   (src/apps/typesense/src/pages/api/webhooks-status.ts).

   The handlers are shallowly embedded: external collaborators (the config
   extractor, the use case, the configuration logger, the GraphQL client, the
   Typesense ping) are modelled as fields of an environment record that fixes
   their outcome for one request, and the handler is a pure function from that
   environment to the HTTP response it sends (if any) together with the list of
   observable side effects it performs, in order. -/

namespace SaleorApps

/-- Exceptions that can be thrown by collaborators during handling.
  `avataxInvalidAddress` models an `AvataxInvalidAddressError` instance; any
  other exception is `other` with an identifying tag. -/
inductive Exn where
  | avataxInvalidAddress
  | other (tag : String)
  deriving DecidableEq, Repr

/-- Outcome of calling an external collaborator: it either returns a value or
  throws an exception. -/
inductive Outcome (α : Type) where
  | ok (a : α)
  | throws (e : Exn)
  deriving DecidableEq, Repr

/-- True exactly for a throwing outcome. -/
def Outcome.isThrows : Outcome α → Bool
  | .ok _ => false
  | .throws _ => true

namespace CheckoutCalculateTaxes

/-- One key/value entry of the recipient private metadata. -/
structure KV where
  key : String
  value : String
  deriving DecidableEq, Repr

/-- `payload.taxBase.channel` of the webhook payload. -/
structure TaxBaseChannel where
  slug : String
  deriving DecidableEq, Repr

/-- `payload.taxBase.sourceObject` of the webhook payload (the checkout). -/
structure TaxBaseSourceObject where
  id : String
  deriving DecidableEq, Repr

/-- `payload.taxBase` of the webhook payload. -/
structure TaxBase where
  channel : TaxBaseChannel
  sourceObject : TaxBaseSourceObject
  deriving DecidableEq, Repr

/-- `payload.recipient`: the app installation, carrying optional private
  metadata. -/
structure Recipient where
  privateMetadata : Option (List KV)
  deriving DecidableEq, Repr

/-- The inbound CHECKOUT_CALCULATE_TAXES webhook payload (the fields the
  handler reads). -/
structure Payload where
  taxBase : TaxBase
  recipient : Option Recipient
  version : Option String
  deriving DecidableEq, Repr

/-- Per-tenant auth context supplied by the platform. -/
structure AuthData where
  saleorApiUrl : String
  token : String
  appId : String
  deriving DecidableEq, Repr

/-- A structurally valid app configuration decoded from private metadata.
  Its contents are opaque to the handler, which only forwards it. -/
structure AppConfig where
  raw : String
  deriving DecidableEq, Repr

/-- The error returned by the config extractor when metadata is missing or
  malformed. -/
structure ConfigError where
  message : String
  deriving DecidableEq, Repr

/-- The success value computed by the calculate-taxes use case (the computed
  tax breakdown); opaque to the handler. -/
structure TaxValue where
  raw : String
  deriving DecidableEq, Repr

/-- The four error classes of `CalculateTaxesUseCase` the handler switches on
  (`err.constructor`). `FailedCalculatingTaxesError` and `UnhandledError`
  carry the original cause. -/
inductive UseCaseError where
  | FailedCalculatingTaxesError (cause : Exn)
  | ConfigBrokenError
  | ExpectedIncompletePayloadError
  | UnhandledError (cause : Exn)
  deriving DecidableEq, Repr

/-- Arguments of the `captureException` calls the handler can make. -/
inductive Captured where
  | logConfigurationMetricError (cause : Exn)
  | useCaseError (e : UseCaseError)
  | handlerError (e : Exn)
  deriving DecidableEq, Repr

/-- Observable side effects of one handler run, in program order. -/
inductive Event where
  | capturedException (c : Captured)
  | metadataCacheSet (md : List KV)
  | useCaseInvoked
  deriving DecidableEq, Repr

/-- An HTTP response body: either an error object with a `message` string, or
  the success body built by `ctx.buildResponse`. -/
inductive Body where
  | message (m : String)
  | builtResponse (v : TaxValue)
  deriving DecidableEq, Repr

/-- An HTTP response: status code plus JSON body. -/
structure Response where
  status : Nat
  body : Body
  deriving DecidableEq, Repr

/-- The platform response-building contract `ctx.buildResponse(value)`:
  embeds the use case value into the response body. -/
def buildResponse (v : TaxValue) : Body :=
  Body.builtResponse v

/-- Environment of one request: the payload and auth data, plus the behavior
  of every external collaborator the handler calls. -/
structure Env where
  payload : Payload
  authData : AuthData
  extract : List KV → Except ConfigError AppConfig
  logConfiguration : Outcome Unit
  calculateTaxes : Payload → AuthData → Outcome (Except UseCaseError TaxValue)

/-- `payload.recipient?.privateMetadata ?? []`: the raw metadata list, with an
  empty list substituted when the recipient or its private metadata is
  absent. -/
def resolveAppMetadata (p : Payload) : List KV :=
  match p.recipient with
  | none => []
  | some r => r.privateMetadata.getD []

/-- The config step of the handler:
  `configExtractor.extractAppConfigFromPrivateMetadata(appMetadata).map(...)`.
  When extraction succeeds, the map callback logs the configuration; a throw
  from the logger is caught, wrapped in `LogConfigurationMetricError` and
  reported via `captureException`, and the config is still returned. -/
def configStep (env : Env) (appMetadata : List KV) :
    Except ConfigError AppConfig × List Event :=
  match env.extract appMetadata with
  | Except.error e => (Except.error e, [])
  | Except.ok c =>
    match env.logConfiguration with
    | Outcome.ok _ => (Except.ok c, [])
    | Outcome.throws ex =>
      (Except.ok c,
       [Event.capturedException (Captured.logConfigurationMetricError ex)])

/-- The `switch (err.constructor)` of the handler's error branch: each of the
  four use-case error classes maps to a response (and, for `UnhandledError`,
  a `captureException(err)` call). A value matching no case yields `none`
  (the switch would fall through without responding). -/
def switchOnErrorConstructor (checkoutId : String) (err : UseCaseError) :
    Option (Response × List Event) :=
  match err with
  | UseCaseError.FailedCalculatingTaxesError _ =>
    some (⟨500, Body.message
      ("Failed to calculate taxes for checkout: " ++ checkoutId)⟩, [])
  | UseCaseError.ConfigBrokenError =>
    some (⟨500, Body.message
      ("Failed to calculate taxes due to invalid configuration for checkout: "
        ++ checkoutId)⟩, [])
  | UseCaseError.ExpectedIncompletePayloadError =>
    some (⟨400, Body.message
      ("Taxes can\x27t be calculated due to incomplete payload for checkout: "
        ++ checkoutId)⟩, [])
  | UseCaseError.UnhandledError _ =>
    some (⟨500, Body.message
      ("Failed to calculate taxes (Unhandled error) for checkout: "
        ++ checkoutId)⟩,
      [Event.capturedException (Captured.useCaseError err)])

/-- The body of the handler's `try` block: config extraction and early 400,
  `metadataCache.setMetadata`, the use case call, and `result.match`. Returns
  either a thrown exception or the response sent (none when the error switch
  falls through), together with the side effects performed. -/
def handlerBody (env : Env) : Except Exn (Option Response) × List Event :=
  match configStep env (resolveAppMetadata env.payload) with
  | (Except.error _, evs) =>
    (Except.ok (some ⟨400, Body.message
      ("App configuration is broken for checkout: "
        ++ env.payload.taxBase.sourceObject.id)⟩), evs)
  | (Except.ok _, evs) =>
    match env.calculateTaxes env.payload env.authData with
    | Outcome.throws ex =>
      (Except.error ex,
       evs ++ [Event.metadataCacheSet (resolveAppMetadata env.payload),
               Event.useCaseInvoked])
    | Outcome.ok (Except.ok v) =>
      (Except.ok (some ⟨200, buildResponse v⟩),
       evs ++ [Event.metadataCacheSet (resolveAppMetadata env.payload),
               Event.useCaseInvoked])
    | Outcome.ok (Except.error err) =>
      match switchOnErrorConstructor env.payload.taxBase.sourceObject.id err with
      | some (resp, evs2) =>
        (Except.ok (some resp),
         evs ++ [Event.metadataCacheSet (resolveAppMetadata env.payload),
                 Event.useCaseInvoked] ++ evs2)
      | none =>
        (Except.ok none,
         evs ++ [Event.metadataCacheSet (resolveAppMetadata env.payload),
                 Event.useCaseInvoked])

/-- The full handler: the try body wrapped in the outer `catch`, which maps an
  `AvataxInvalidAddressError` to a fixed 400 response and any other exception
  to `Sentry.captureException` plus a generic 500 response. -/
def checkoutCalculateTaxesHandler (env : Env) : Option Response × List Event :=
  match handlerBody env with
  | (Except.ok r, evs) => (r, evs)
  | (Except.error Exn.avataxInvalidAddress, evs) =>
    (some ⟨400, Body.message
      "InvalidAppAddressError: Check address in app configuration"⟩, evs)
  | (Except.error (Exn.other t), evs) =>
    (some ⟨500, Body.message "Unhandled error"⟩,
     evs ++ [Event.capturedException (Captured.handlerError (Exn.other t))])

/-- The HTTP status the spec's error table (section 4.3) assigns to each
  use-case error variant. -/
def useCaseErrorStatus : UseCaseError → Nat
  | UseCaseError.ExpectedIncompletePayloadError => 400
  | _ => 500

/-- The message string the handler's switch produces for each use-case error
  variant (taken verbatim from the source). -/
def useCaseErrorMessage (checkoutId : String) : UseCaseError → String
  | UseCaseError.FailedCalculatingTaxesError _ =>
    "Failed to calculate taxes for checkout: " ++ checkoutId
  | UseCaseError.ConfigBrokenError =>
    "Failed to calculate taxes due to invalid configuration for checkout: "
      ++ checkoutId
  | UseCaseError.ExpectedIncompletePayloadError =>
    "Taxes can\x27t be calculated due to incomplete payload for checkout: "
      ++ checkoutId
  | UseCaseError.UnhandledError _ =>
    "Failed to calculate taxes (Unhandled error) for checkout: " ++ checkoutId

/-- A message mentions the checkout id when the id occurs in it (here: as a
  suffix, which is how every handler message embeds it). -/
def MentionsCheckoutId (m checkoutId : String) : Prop :=
  ∃ pre, m = pre ++ checkoutId

/-- Modelled from the spec: the internals of `CalculateTaxesUseCase`
  (src/apps/avatax/src/modules/calculate-taxes/use-case/calculate-taxes.use-case.ts
  is not under src/). Outcome of the external tax-provider call as seen by the
  use case. -/
inductive ProviderOutcome where
  | success (v : TaxValue)
  | knownDomainError (e : Exn)
  | throwsUnrecognized (e : Exn)
  deriving DecidableEq, Repr

/-- Modelled from the spec: `CalculateTaxesUseCase.calculateTaxes` contract of
  section 4.3 (the implementation is not under src/): incomplete payload fails
  with `ExpectedIncompletePayloadError`, invalid config with
  `ConfigBrokenError`, a known recoverable provider failure with
  `FailedCalculatingTaxesError`, an unrecognized exception with
  `UnhandledError` carrying the cause, and otherwise the computed taxes are
  returned. -/
def calculateTaxesUseCaseModel (payloadComplete : Bool) (configValid : Bool)
    (provider : ProviderOutcome) : Except UseCaseError TaxValue :=
  if !payloadComplete then
    Except.error UseCaseError.ExpectedIncompletePayloadError
  else if !configValid then
    Except.error UseCaseError.ConfigBrokenError
  else
    match provider with
    | ProviderOutcome.success v => Except.ok v
    | ProviderOutcome.knownDomainError e =>
      Except.error (UseCaseError.FailedCalculatingTaxesError e)
    | ProviderOutcome.throwsUnrecognized e =>
      Except.error (UseCaseError.UnhandledError e)

/-- A sample payload used by the witnesses. -/
def samplePayload : Payload :=
  { taxBase :=
      { channel := { slug := "default-channel" }
        sourceObject := { id := "Q2hlY2tvdXQ6MTIz" } }
    recipient := some { privateMetadata := some [{ key := "app-config", value := "v" }] }
    version := some "3.19" }

/-- Sample auth data used by the witnesses. -/
def sampleAuth : AuthData :=
  { saleorApiUrl := "https://example.saleor.cloud/graphql/"
    token := "token"
    appId := "app-id" }

/-- A sample extracted configuration used by the witnesses. -/
def sampleConfig : AppConfig :=
  { raw := "cfg" }

/-- An environment whose extractor succeeds, whose logger succeeds, and whose
  use case call has the given outcome. -/
def envWithUseCase (uc : Outcome (Except UseCaseError TaxValue)) : Env :=
  { payload := samplePayload
    authData := sampleAuth
    extract := fun _ => Except.ok sampleConfig
    logConfiguration := Outcome.ok ()
    calculateTaxes := fun _ _ => uc }

/-- An environment whose extractor always fails. -/
def envBrokenConfig : Env :=
  { payload := samplePayload
    authData := sampleAuth
    extract := fun _ => Except.error { message := "missing key" }
    logConfiguration := Outcome.ok ()
    calculateTaxes := fun _ _ => Outcome.ok (Except.ok { raw := "taxes" }) }

/-- An environment with a succeeding extractor and use case, used to vary the
  logging outcome. -/
def envBrokenLogging : Env :=
  { payload := samplePayload
    authData := sampleAuth
    extract := fun _ => Except.ok sampleConfig
    logConfiguration := Outcome.throws (Exn.other "log-fail")
    calculateTaxes := fun _ _ => Outcome.ok (Except.ok { raw := "taxes" }) }

/-- An environment whose payload has no recipient at all. -/
def envNoRecipient : Env :=
  { payload :=
      { taxBase :=
          { channel := { slug := "default-channel" }
            sourceObject := { id := "Q2hlY2tvdXQ6MTIz" } }
        recipient := none
        version := none }
    authData := sampleAuth
    extract := fun _ => Except.ok sampleConfig
    logConfiguration := Outcome.ok ()
    calculateTaxes := fun _ _ => Outcome.ok (Except.ok { raw := "taxes" }) }

/-- True exactly for a `metadataCacheSet` event. -/
def isMetadataCacheSetEvent : Event → Bool
  | Event.metadataCacheSet _ => true
  | _ => false

/-- Claim C1: for every error result returned by calculateTaxes, the handler
  maps the variant to the fixed status of the spec's table (400 for
  `ExpectedIncompletePayloadError`, 500 for the other three), and the response
  body is a `message` string that mentions the checkout id
  `payload.taxBase.sourceObject.id`. -/
theorem handler_maps_error_variants_to_table (env : Env) (err : UseCaseError)
    (c : AppConfig)
    (hex : env.extract (resolveAppMetadata env.payload) = Except.ok c)
    (huc : env.calculateTaxes env.payload env.authData =
      Outcome.ok (Except.error err)) :
    (checkoutCalculateTaxesHandler env).1 =
      some ⟨useCaseErrorStatus err,
        Body.message
          (useCaseErrorMessage env.payload.taxBase.sourceObject.id err)⟩ ∧
    MentionsCheckoutId
      (useCaseErrorMessage env.payload.taxBase.sourceObject.id err)
      env.payload.taxBase.sourceObject.id := by
  constructor
  · cases hlog : env.logConfiguration <;> cases err <;>
      simp [checkoutCalculateTaxesHandler, handlerBody, configStep, hex, huc,
        hlog, switchOnErrorConstructor, useCaseErrorStatus, useCaseErrorMessage]
  · cases err <;> exact ⟨_, rfl⟩

/-- Witness for C1: a concrete run where the use case fails with
  `ConfigBrokenError` yields the 500 response of the table with the checkout
  id in the message. -/
theorem handler_maps_error_variants_to_table_witness :
    (checkoutCalculateTaxesHandler
        (envWithUseCase (Outcome.ok
          (Except.error UseCaseError.ConfigBrokenError)))).1 =
      some ⟨useCaseErrorStatus UseCaseError.ConfigBrokenError,
        Body.message (useCaseErrorMessage "Q2hlY2tvdXQ6MTIz"
          UseCaseError.ConfigBrokenError)⟩ ∧
    MentionsCheckoutId
      (useCaseErrorMessage "Q2hlY2tvdXQ6MTIz" UseCaseError.ConfigBrokenError)
      "Q2hlY2tvdXQ6MTIz" :=
  handler_maps_error_variants_to_table _ _ sampleConfig rfl rfl

/-- Claim C2: for every error variant the use case can return, the handler's
  error-mapping branch produces exactly one HTTP response: the switch on the
  error constructor matches every variant (its no-matching-case branch that
  would fall through without a response is unreachable), so the handler's
  response is always present. -/
theorem error_switch_exhaustive (env : Env) (err : UseCaseError)
    (c : AppConfig)
    (hex : env.extract (resolveAppMetadata env.payload) = Except.ok c)
    (huc : env.calculateTaxes env.payload env.authData =
      Outcome.ok (Except.error err)) :
    ((checkoutCalculateTaxesHandler env).1).isSome = true ∧
    (switchOnErrorConstructor env.payload.taxBase.sourceObject.id err).isSome
      = true := by
  constructor
  · cases hlog : env.logConfiguration <;> cases err <;>
      simp [checkoutCalculateTaxesHandler, handlerBody, configStep, hex, huc,
        hlog, switchOnErrorConstructor]
  · cases err <;> simp [switchOnErrorConstructor]

/-- Witness for C2: a concrete run failing with
  `FailedCalculatingTaxesError` produces a response and hits a switch case. -/
theorem error_switch_exhaustive_witness :
    ((checkoutCalculateTaxesHandler
        (envWithUseCase (Outcome.ok (Except.error
          (UseCaseError.FailedCalculatingTaxesError
            (Exn.other "network")))))).1).isSome = true ∧
    (switchOnErrorConstructor "Q2hlY2tvdXQ6MTIz"
        (UseCaseError.FailedCalculatingTaxesError
          (Exn.other "network"))).isSome = true :=
  error_switch_exhaustive _ _ sampleConfig rfl rfl

/-- Claim C4: an `AvataxInvalidAddressError` thrown outside the use case's
  Result is caught by the handler's catch block and mapped to HTTP 400 with
  the fixed body message, distinct from `ConfigBrokenError`'s 500. -/
theorem invalid_address_error_maps_400 (env : Env) (c : AppConfig)
    (hex : env.extract (resolveAppMetadata env.payload) = Except.ok c)
    (huc : env.calculateTaxes env.payload env.authData =
      Outcome.throws Exn.avataxInvalidAddress) :
    (checkoutCalculateTaxesHandler env).1 =
      some ⟨400, Body.message
        "InvalidAppAddressError: Check address in app configuration"⟩ ∧
    useCaseErrorStatus UseCaseError.ConfigBrokenError = 500 ∧
    (400 : Nat) ≠ 500 := by
  refine ⟨?_, rfl, by decide⟩
  cases hlog : env.logConfiguration <;>
    simp [checkoutCalculateTaxesHandler, handlerBody, configStep, hex, huc,
      hlog]

/-- Witness for C4: a concrete run whose use case call throws
  `AvataxInvalidAddressError` responds 400 with the fixed message. -/
theorem invalid_address_error_maps_400_witness :
    (checkoutCalculateTaxesHandler
        (envWithUseCase (Outcome.throws Exn.avataxInvalidAddress))).1 =
      some ⟨400, Body.message
        "InvalidAppAddressError: Check address in app configuration"⟩ ∧
    useCaseErrorStatus UseCaseError.ConfigBrokenError = 500 ∧
    (400 : Nat) ≠ 500 :=
  invalid_address_error_maps_400 _ sampleConfig rfl rfl

/-- Claim C5: when config extraction fails, the handler responds 400 with a
  message mentioning the checkout id, never invokes the use case, and does
  not populate the metadata cache. -/
theorem config_error_short_circuits (env : Env) (ce : ConfigError)
    (hex : env.extract (resolveAppMetadata env.payload) = Except.error ce) :
    (checkoutCalculateTaxesHandler env).1 =
      some ⟨400, Body.message
        ("App configuration is broken for checkout: "
          ++ env.payload.taxBase.sourceObject.id)⟩ ∧
    MentionsCheckoutId
      ("App configuration is broken for checkout: "
        ++ env.payload.taxBase.sourceObject.id)
      env.payload.taxBase.sourceObject.id ∧
    Event.useCaseInvoked ∉ (checkoutCalculateTaxesHandler env).2 ∧
    (checkoutCalculateTaxesHandler env).2.filter isMetadataCacheSetEvent
      = [] := by
  refine ⟨?_, ⟨_, rfl⟩, ?_, ?_⟩ <;>
    simp [checkoutCalculateTaxesHandler, handlerBody, configStep, hex]

/-- Witness for C5: a concrete run with a failing extractor responds 400 and
  performs no cache write and no use case call. -/
theorem config_error_short_circuits_witness :
    (checkoutCalculateTaxesHandler envBrokenConfig).1 =
      some ⟨400, Body.message
        ("App configuration is broken for checkout: " ++ "Q2hlY2tvdXQ6MTIz")⟩ ∧
    MentionsCheckoutId
      ("App configuration is broken for checkout: " ++ "Q2hlY2tvdXQ6MTIz")
      "Q2hlY2tvdXQ6MTIz" ∧
    Event.useCaseInvoked ∉ (checkoutCalculateTaxesHandler envBrokenConfig).2 ∧
    (checkoutCalculateTaxesHandler envBrokenConfig).2.filter
      isMetadataCacheSetEvent = [] :=
  config_error_short_circuits envBrokenConfig ⟨"missing key"⟩ rfl

/-- Claim C6: when the use case returns a success value, the handler responds
  HTTP 200 with the body built from that value via `ctx.buildResponse`. -/
theorem success_returns_200 (env : Env) (c : AppConfig) (v : TaxValue)
    (hex : env.extract (resolveAppMetadata env.payload) = Except.ok c)
    (huc : env.calculateTaxes env.payload env.authData =
      Outcome.ok (Except.ok v)) :
    (checkoutCalculateTaxesHandler env).1 = some ⟨200, buildResponse v⟩ := by
  cases hlog : env.logConfiguration <;>
    simp [checkoutCalculateTaxesHandler, handlerBody, configStep, hex, huc,
      hlog]

/-- Witness for C6: a concrete successful run responds 200 with the built
  body. -/
theorem success_returns_200_witness :
    (checkoutCalculateTaxesHandler
        (envWithUseCase (Outcome.ok (Except.ok ⟨"taxes"⟩)))).1 =
      some ⟨200, buildResponse ⟨"taxes"⟩⟩ :=
  success_returns_200 _ sampleConfig ⟨"taxes"⟩ rfl rfl

/-- Claim C3: when the provider call fails with an unrecognized exception,
  the modelled use case returns `UnhandledError` carrying the cause, the
  handler reports that error via `captureException` exactly once, and the
  handler responds HTTP 500. -/
theorem unhandled_error_reported_once (env : Env) (c : AppConfig) (ex : Exn)
    (hex : env.extract (resolveAppMetadata env.payload) = Except.ok c)
    (huc : env.calculateTaxes env.payload env.authData =
      Outcome.ok (calculateTaxesUseCaseModel true true
        (ProviderOutcome.throwsUnrecognized ex))) :
    calculateTaxesUseCaseModel true true
        (ProviderOutcome.throwsUnrecognized ex) =
      Except.error (UseCaseError.UnhandledError ex) ∧
    (checkoutCalculateTaxesHandler env).1 =
      some ⟨500, Body.message
        (useCaseErrorMessage env.payload.taxBase.sourceObject.id
          (UseCaseError.UnhandledError ex))⟩ ∧
    ((checkoutCalculateTaxesHandler env).2).count
      (Event.capturedException
        (Captured.useCaseError (UseCaseError.UnhandledError ex))) = 1 := by
  simp only [calculateTaxesUseCaseModel] at huc
  refine ⟨rfl, ?_, ?_⟩ <;>
    cases hlog : env.logConfiguration <;>
      simp [checkoutCalculateTaxesHandler, handlerBody, configStep, hex, huc,
        hlog, switchOnErrorConstructor, useCaseErrorMessage, List.count_append,
        List.count_cons, List.count_nil]

/-- Witness for C3: a concrete run whose provider throws an unrecognized
  exception yields `UnhandledError`, one report, and a 500 response. -/
theorem unhandled_error_reported_once_witness :
    calculateTaxesUseCaseModel true true
        (ProviderOutcome.throwsUnrecognized (Exn.other "ECONNRESET")) =
      Except.error (UseCaseError.UnhandledError (Exn.other "ECONNRESET")) ∧
    (checkoutCalculateTaxesHandler
        (envWithUseCase (Outcome.ok (calculateTaxesUseCaseModel true true
          (ProviderOutcome.throwsUnrecognized (Exn.other "ECONNRESET")))))).1 =
      some ⟨500, Body.message
        (useCaseErrorMessage "Q2hlY2tvdXQ6MTIz"
          (UseCaseError.UnhandledError (Exn.other "ECONNRESET")))⟩ ∧
    ((checkoutCalculateTaxesHandler
        (envWithUseCase (Outcome.ok (calculateTaxesUseCaseModel true true
          (ProviderOutcome.throwsUnrecognized
            (Exn.other "ECONNRESET")))))).2).count
      (Event.capturedException
        (Captured.useCaseError
          (UseCaseError.UnhandledError (Exn.other "ECONNRESET")))) = 1 :=
  unhandled_error_reported_once _ sampleConfig (Exn.other "ECONNRESET") rfl rfl

/-- Claim C8: any exception that is not an `AvataxInvalidAddressError` thrown
  during handling is caught at the outermost boundary, reported via
  `Sentry.captureException` exactly once, and mapped to a 500 response whose
  body is the fixed generic message with no detail of the exception. -/
theorem unexpected_exception_caught_once (env : Env) (c : AppConfig)
    (t : String)
    (hex : env.extract (resolveAppMetadata env.payload) = Except.ok c)
    (huc : env.calculateTaxes env.payload env.authData =
      Outcome.throws (Exn.other t)) :
    (checkoutCalculateTaxesHandler env).1 =
      some ⟨500, Body.message "Unhandled error"⟩ ∧
    ((checkoutCalculateTaxesHandler env).2).count
      (Event.capturedException (Captured.handlerError (Exn.other t)))
      = 1 := by
  constructor <;>
    cases hlog : env.logConfiguration <;>
      simp [checkoutCalculateTaxesHandler, handlerBody, configStep, hex, huc,
        hlog, List.count_append, List.count_cons, List.count_nil]

/-- Witness for C8: a concrete run whose use case call throws a plain
  exception responds with the generic 500 and one report. -/
theorem unexpected_exception_caught_once_witness :
    (checkoutCalculateTaxesHandler
        (envWithUseCase (Outcome.throws (Exn.other "TypeError")))).1 =
      some ⟨500, Body.message "Unhandled error"⟩ ∧
    ((checkoutCalculateTaxesHandler
        (envWithUseCase (Outcome.throws (Exn.other "TypeError")))).2).count
      (Event.capturedException
        (Captured.handlerError (Exn.other "TypeError"))) = 1 :=
  unexpected_exception_caught_once _ sampleConfig "TypeError" rfl rfl

/-- Changing only the logging outcome never changes the first component
  (thrown exception or response) of the handler body. -/
theorem handlerBody_fst_ignores_logging (env : Env) (o₁ o₂ : Outcome Unit) :
    (handlerBody { env with logConfiguration := o₁ }).1 =
      (handlerBody { env with logConfiguration := o₂ }).1 := by
  cases hce : env.extract (resolveAppMetadata env.payload) with
  | error e =>
    cases o₁ <;> cases o₂ <;> simp [handlerBody, configStep, hce]
  | ok c =>
    cases huc : env.calculateTaxes env.payload env.authData with
    | throws ex =>
      cases o₁ <;> cases o₂ <;> simp [handlerBody, configStep, hce, huc]
    | ok r =>
      cases r with
      | ok v =>
        cases o₁ <;> cases o₂ <;> simp [handlerBody, configStep, hce, huc]
      | error err =>
        cases hsw : switchOnErrorConstructor
            env.payload.taxBase.sourceObject.id err with
        | none =>
          cases o₁ <;> cases o₂ <;>
            simp [handlerBody, configStep, hce, huc, hsw]
        | some p =>
          cases o₁ <;> cases o₂ <;>
            simp [handlerBody, configStep, hce, huc, hsw]

/-- The response sent by the handler is a function of the handler body's
  first component alone. -/
theorem handler_response_of_body_fst (env₁ env₂ : Env)
    (h : (handlerBody env₁).1 = (handlerBody env₂).1) :
    (checkoutCalculateTaxesHandler env₁).1 =
      (checkoutCalculateTaxesHandler env₂).1 := by
  unfold checkoutCalculateTaxesHandler
  cases h₁ : handlerBody env₁ with
  | mk fst₁ evs₁ =>
    cases h₂ : handlerBody env₂ with
    | mk fst₂ evs₂ =>
      rw [h₁, h₂] at h
      simp only at h
      subst h
      cases fst₁ with
      | ok r => simp
      | error e => cases e <;> simp

/-- Claim C7: whether the configuration-summary logging step succeeds or
  throws has no effect on the HTTP response: two runs differing only in the
  logging outcome produce identical responses, extraction still yields the
  same config value in both, and the logging failure is reported separately
  via `captureException`. -/
theorem logging_outcome_does_not_affect_response (env : Env)
    (o₁ o₂ : Outcome Unit) (ex : Exn) (c : AppConfig)
    (h₁ : o₁ = Outcome.throws ex)
    (hex : env.extract (resolveAppMetadata env.payload) = Except.ok c) :
    (checkoutCalculateTaxesHandler { env with logConfiguration := o₁ }).1 =
      (checkoutCalculateTaxesHandler { env with logConfiguration := o₂ }).1 ∧
    (configStep { env with logConfiguration := o₁ }
        (resolveAppMetadata env.payload)).1 = Except.ok c ∧
    (configStep { env with logConfiguration := o₂ }
        (resolveAppMetadata env.payload)).1 = Except.ok c ∧
    Event.capturedException (Captured.logConfigurationMetricError ex) ∈
      (checkoutCalculateTaxesHandler
        { env with logConfiguration := o₁ }).2 := by
  subst h₁
  refine ⟨handler_response_of_body_fst _ _
    (handlerBody_fst_ignores_logging env _ o₂), ?_, ?_, ?_⟩
  · simp [configStep, hex]
  · cases o₂ <;> simp [configStep, hex]
  · cases huc : env.calculateTaxes env.payload env.authData with
    | throws e =>
      cases e <;>
        simp [checkoutCalculateTaxesHandler, handlerBody, configStep, hex, huc]
    | ok r =>
      cases r with
      | ok v =>
        simp [checkoutCalculateTaxesHandler, handlerBody, configStep, hex, huc]
      | error err =>
        cases err <;>
          simp [checkoutCalculateTaxesHandler, handlerBody, configStep, hex,
            huc, switchOnErrorConstructor]

/-- Witness for C7: on a concrete run whose logger throws, the response
  equals the response of the same run with a succeeding logger, the config
  value is the same, and the logging failure is reported. -/
theorem logging_outcome_does_not_affect_response_witness :
    (checkoutCalculateTaxesHandler
        { envBrokenLogging with
            logConfiguration := Outcome.throws (Exn.other "log-fail") }).1 =
      (checkoutCalculateTaxesHandler
        { envBrokenLogging with logConfiguration := Outcome.ok () }).1 ∧
    (configStep
        { envBrokenLogging with
            logConfiguration := Outcome.throws (Exn.other "log-fail") }
        (resolveAppMetadata envBrokenLogging.payload)).1 =
      Except.ok sampleConfig ∧
    (configStep
        { envBrokenLogging with logConfiguration := Outcome.ok () }
        (resolveAppMetadata envBrokenLogging.payload)).1 =
      Except.ok sampleConfig ∧
    Event.capturedException
        (Captured.logConfigurationMetricError (Exn.other "log-fail")) ∈
      (checkoutCalculateTaxesHandler
        { envBrokenLogging with
            logConfiguration := Outcome.throws (Exn.other "log-fail") }).2 :=
  logging_outcome_does_not_affect_response envBrokenLogging
    (Outcome.throws (Exn.other "log-fail")) (Outcome.ok ())
    (Exn.other "log-fail") sampleConfig rfl rfl

/-- Absent private metadata: the payload has no recipient, or the recipient
  has no privateMetadata field. -/
def privateMetadataAbsent (p : Payload) : Prop :=
  p.recipient = none ∨
    Option.map Recipient.privateMetadata p.recipient = some none

/-- Claim C10: when the payload has no recipient or no privateMetadata field,
  the handler substitutes the empty metadata list; it responds 400 only if
  the extractor fails on that empty list, and otherwise the empty list is
  written to the metadata cache and the use case is invoked. -/
theorem missing_metadata_substitutes_empty_list (env : Env)
    (h : privateMetadataAbsent env.payload) :
    resolveAppMetadata env.payload = [] ∧
    (∀ ce, env.extract [] = Except.error ce →
      (checkoutCalculateTaxesHandler env).1 =
        some ⟨400, Body.message
          ("App configuration is broken for checkout: "
            ++ env.payload.taxBase.sourceObject.id)⟩) ∧
    (∀ c, env.extract [] = Except.ok c →
      Event.metadataCacheSet [] ∈ (checkoutCalculateTaxesHandler env).2 ∧
      Event.useCaseInvoked ∈ (checkoutCalculateTaxesHandler env).2) := by
  have hmd : resolveAppMetadata env.payload = [] := by
    rcases h with h | h
    · simp [resolveAppMetadata, h]
    · cases hr : env.payload.recipient with
      | none => simp [resolveAppMetadata, hr]
      | some r =>
        rw [hr] at h
        simp [Option.map] at h
        simp [resolveAppMetadata, hr, h]
  refine ⟨hmd, ?_, ?_⟩
  · intro ce hce
    simp [checkoutCalculateTaxesHandler, handlerBody, configStep, hmd, hce]
  · intro c hc
    cases hlog : env.logConfiguration with
    | ok u =>
      cases huc : env.calculateTaxes env.payload env.authData with
      | throws e =>
        cases e <;>
          constructor <;>
            simp [checkoutCalculateTaxesHandler, handlerBody, configStep,
              hmd, hc, hlog, huc]
      | ok r =>
        cases r with
        | ok v =>
          constructor <;>
            simp [checkoutCalculateTaxesHandler, handlerBody, configStep,
              hmd, hc, hlog, huc]
        | error err =>
          cases err <;>
            constructor <;>
              simp [checkoutCalculateTaxesHandler, handlerBody, configStep,
                hmd, hc, hlog, huc, switchOnErrorConstructor]
    | throws lex =>
      cases huc : env.calculateTaxes env.payload env.authData with
      | throws e =>
        cases e <;>
          constructor <;>
            simp [checkoutCalculateTaxesHandler, handlerBody, configStep,
              hmd, hc, hlog, huc]
      | ok r =>
        cases r with
        | ok v =>
          constructor <;>
            simp [checkoutCalculateTaxesHandler, handlerBody, configStep,
              hmd, hc, hlog, huc]
        | error err =>
          cases err <;>
            constructor <;>
              simp [checkoutCalculateTaxesHandler, handlerBody, configStep,
                hmd, hc, hlog, huc, switchOnErrorConstructor]

/-- Witness for C10: a concrete payload without a recipient resolves to the
  empty metadata list, and with an extractor that accepts the empty list the
  cache is populated with it and the use case is invoked. -/
theorem missing_metadata_substitutes_empty_list_witness :
    resolveAppMetadata envNoRecipient.payload = [] ∧
    (Event.metadataCacheSet [] ∈
        (checkoutCalculateTaxesHandler envNoRecipient).2 ∧
      Event.useCaseInvoked ∈
        (checkoutCalculateTaxesHandler envNoRecipient).2) :=
  ⟨(missing_metadata_substitutes_empty_list envNoRecipient (Or.inl rfl)).1,
   (missing_metadata_substitutes_empty_list envNoRecipient
      (Or.inl rfl)).2.2 sampleConfig rfl⟩

end CheckoutCalculateTaxes

namespace WebhooksStatus

/-- The Typesense connection settings stored under `config.appConfig`. -/
structure TypesenseConfig where
  host : String
  apiKey : String
  protocol : String
  port : Nat
  connectionTimeoutSeconds : Nat
  deriving DecidableEq, Repr

/-- The value returned by `configManager.get(...).getConfig()`: an optional
  `appConfig` plus the fields mapping. -/
structure AppConfigValues where
  appConfig : Option TypesenseConfig
  enabledTypesenseFields : List String
  deriving DecidableEq, Repr

/-- One of the app's own webhooks as fetched from Saleor. -/
structure Webhook where
  name : String
  deriving DecidableEq, Repr

/-- Observable side effects of one webhooks-status run, in program order. -/
inductive TEvent where
  | typesensePing
  | disableOwnWebhooks
  deriving DecidableEq, Repr

/-- The response body of the webhooks-status handler: `res.end()` with no
  body on 500, or the JSON with the webhooks and the update flag on 200. -/
inductive TBody where
  | empty
  | json (webhooks : List Webhook) (isUpdateNeeded : Bool)
  deriving DecidableEq, Repr

/-- An HTTP response of the webhooks-status handler. -/
structure TResponse where
  status : Nat
  body : TBody
  deriving DecidableEq, Repr

/-- Environment of one webhooks-status request: the stored configuration and
  the behavior of the external collaborators (the Typesense ping, the
  own-webhooks GraphQL query, and the `isWebhookUpdateNeeded` predicate). -/
structure TEnv where
  config : AppConfigValues
  ping : Outcome Unit
  fetchWebhooks : Outcome (Option (List Webhook))
  updateNeeded : List String → Bool

/-- The side effects of the webhooks-status handler: with no `appConfig` the
  app's own webhooks are disabled; otherwise Typesense is pinged and, only
  when the ping throws, the webhooks are disabled. -/
def webhooksStatusEvents (env : TEnv) : List TEvent :=
  match env.config.appConfig with
  | none => [TEvent.disableOwnWebhooks]
  | some _ =>
    match env.ping with
    | Outcome.ok _ => [TEvent.typesensePing]
    | Outcome.throws _ => [TEvent.typesensePing, TEvent.disableOwnWebhooks]

/-- The response of the webhooks-status handler: 500 with an empty body when
  the own-webhooks query throws or returns no data, otherwise 200 with the
  webhooks and the `isWebhookUpdateNeeded` flag computed from their names. -/
def webhooksStatusResponse (env : TEnv) : TResponse :=
  match env.fetchWebhooks with
  | Outcome.throws _ => ⟨500, TBody.empty⟩
  | Outcome.ok none => ⟨500, TBody.empty⟩
  | Outcome.ok (some ws) =>
    ⟨200, TBody.json ws (env.updateNeeded (ws.map Webhook.name))⟩

/-- The webhooks-status handler built by `webhooksStatusHandlerFactory`. -/
def webhooksStatusHandler (env : TEnv) : TResponse × List TEvent :=
  (webhooksStatusResponse env, webhooksStatusEvents env)

/-- Claim C9: the app's own webhooks are disabled exactly when the stored
  configuration has no `appConfig` or the Typesense ping throws; when the
  configuration is present and the ping succeeds, `disableOwnWebhooks` is
  never called. -/
theorem webhooks_disabled_iff_no_config_or_ping_fails (env : TEnv) :
    TEvent.disableOwnWebhooks ∈ (webhooksStatusHandler env).2 ↔
      (env.config.appConfig = none ∨ env.ping.isThrows = true) := by
  cases hc : env.config.appConfig <;> cases hp : env.ping <;>
    simp [webhooksStatusHandler, webhooksStatusEvents, Outcome.isThrows,
      hc, hp]

end WebhooksStatus

end SaleorApps
